import Mathlib

/-!
Verification of the LINE diabetes-care chatbot core (main.py, upload_knowledge_base.py).

The development shallowly embeds the two pieces of the core:
* the 7-step onboarding dialogue state machine (`process_onboarding_answer` and the
  per-user state it mutates), and
* the logical-to-physical store resolution layer with its process-local cache
  (`ensure_file_search_store_exists`, the cache check in `upload_to_file_search_store`,
  the resolution in `query_file_search`) together with the bounded upload-poll loop.

Python dictionaries holding per-user state become explicit record fields; the global
mutable state threaded through a handler becomes explicit state passing; code that can
raise an uncaught exception returns `Except`.
-/

/-- A user profile: the `data` dictionary accumulated by onboarding and stored in
`user_profiles` (main.py).  A missing dictionary key is `none`. -/
structure Profile where
  name : Option String := none
  age : Option String := none
  gender : Option String := none
  diabetes_type : Option String := none
  complications : Option (List String) := none
  education_level : Option String := none
  current_medications : Option (List String) := none
deriving DecidableEq, Repr

/-- One user's entry of `onboarding_state` (main.py line 70):
a step number and the dictionary of answers collected so far. -/
structure Session where
  step : Nat
  data : Profile
deriving DecidableEq, Repr

/-- The per-user slice of the global mutable state touched by the onboarding flow:
`onboarding_state.get(user_id)` and `user_profiles.get(user_id)`. -/
structure UserState where
  session : Option Session
  profile : Option Profile
deriving DecidableEq, Repr

/-- Model of Python `str.strip()`: drop whitespace from both ends.
(Defined over the character list so that proofs can evaluate it; Python also
strips some rarer Unicode whitespace, not modelled.) -/
def pyStrip (s : String) : String :=
  ⟨((s.data.dropWhile Char.isWhitespace).reverse.dropWhile Char.isWhitespace).reverse⟩

/-- Model of Python `str.lower()` (ASCII case folding; the CJK characters the
program compares are fixed points of lowering in both languages). -/
def pyLower (s : String) : String :=
  ⟨s.data.map Char.toLower⟩

/-- Helper for `pySplitComma`: accumulate the current field (reversed). -/
def splitCommaAux : List Char → List Char → List String
  | [], acc => [⟨acc.reverse⟩]
  | c :: cs, acc =>
    if c = ',' then ⟨acc.reverse⟩ :: splitCommaAux cs []
    else splitCommaAux cs (c :: acc)

/-- Model of Python `str.split(',')`: the empty string yields `[""]`, adjacent
separators yield empty fields, exactly as in Python. -/
def pySplitComma (s : String) : List String :=
  splitCommaAux s.data []

/-- Whether the first list is a prefix of the second. -/
def isPrefixList : List Char → List Char → Bool
  | [], _ => true
  | _ :: _, [] => false
  | a :: as, b :: bs => a == b && isPrefixList as bs

/-- Whether the needle occurs as a contiguous sublist of the haystack. -/
def listContains (hay needle : List Char) : Bool :=
  match hay with
  | [] => needle.isEmpty
  | _ :: rest => isPrefixList needle hay || listContains rest needle

/-- Model of Python's `needle in haystack` on strings. -/
def strContains (hay needle : String) : Bool :=
  listContains hay.data needle.data

/-- Truthiness of an optional string field, as Python evaluates
`field in profile and profile[field]`: present and non-empty. -/
def truthy (v : Option String) : Bool :=
  match v with
  | some s => !s.data.isEmpty
  | none => false

/-- main.py lines 100-104, `is_user_profile_complete`: the five required fields
are present and truthy.  The argument is `user_profiles.get(user_id)`;
an absent user (empty dictionary) is incomplete. -/
def is_user_profile_complete (profile : Option Profile) : Bool :=
  match profile with
  | none => false
  | some p =>
      truthy p.name && truthy p.age && truthy p.gender &&
      truthy p.diabetes_type && truthy p.education_level

/-- Model of Python's built-in `int(s)` on a string: strip surrounding whitespace,
optional sign, then a non-empty run of decimal digits; anything else raises
`ValueError`, modelled as `none`.  (Python additionally accepts Unicode digits and
underscore digit grouping; those exotic spellings are not modelled.) -/
def parsePyInt (s : String) : Option Int :=
  let t := (pyStrip s).data
  let stripped : Bool × List Char :=
    match t with
    | '-' :: rest => (true, rest)
    | '+' :: rest => (false, rest)
    | _ => (false, t)
  let neg := stripped.1
  let core := stripped.2
  if core ≠ [] ∧ core.all Char.isDigit then
    let n : Nat := core.foldl (fun acc c => acc * 10 + (c.toNat - 48)) 0
    some (if neg then -(n : Int) else (n : Int))
  else none

/-- main.py lines 764-769: the step-4 diabetes-type code table. -/
def type_map : List (String × String) :=
  [("1", "第1型"), ("2", "第2型"), ("3", "妊娠糖尿病"), ("4", "其他")]

/-- main.py lines 779-785: the step-5 complication code table. -/
def comp_map : List (String × String) :=
  [("1", "視網膜病變"), ("2", "腎臟病變"), ("3", "神經病變"),
   ("4", "心血管疾病"), ("5", "足部病變")]

/-- main.py lines 799-805: the step-6 education-level code table. -/
def edu_map : List (String × String) :=
  [("1", "國小"), ("2", "國中"), ("3", "高中/職"), ("4", "大學"), ("5", "研究所")]

/-- main.py lines 714-725, `get_onboarding_question`. -/
def get_onboarding_question (step : Nat) : String :=
  if step = 1 then "👋 您好！為了提供更個人化的衛教建議，請問我該如何稱呼您？\n（例如：王先生、小美、張媽媽）"
  else if step = 2 then "請問您的年齡是？\n（請輸入數字，例如：45）"
  else if step = 3 then "請問您的性別是？\n（請輸入：男性 或 女性）"
  else if step = 4 then "請問您的糖尿病類型是？\n請選擇：\n1. 第1型糖尿病\n2. 第2型糖尿病\n3. 妊娠糖尿病\n4. 其他類型"
  else if step = 5 then "請問您目前有以下併發症嗎？（可複選，用逗號分隔）\n1. 視網膜病變\n2. 腎臟病變\n3. 神經病變\n4. 心血管疾病\n5. 足部病變\n6. 無\n\n例如：1,3 或 6"
  else if step = 6 then "請問您的教育程度是？\n1. 國小\n2. 國中\n3. 高中/職\n4. 大學\n5. 研究所"
  else if step = 7 then "最後一個問題：您目前有在使用哪些藥物嗎？（可選填）\n（請輸入藥名，用逗號分隔，或輸入「無」）"
  else ""

/-- `', '.join(xs) if xs else '無'`, as used for the complication and medication
lines of the step-7 summary. -/
def joinedOrNone (l : List String) : String :=
  if l.isEmpty then "無" else String.intercalate ", " l

/-- The step-7 completion summary f-string, main.py lines 827-845. -/
def summaryText (name age gender dtype : String) (comps : List String)
    (edu : String) (meds : List String) : String :=
  "\n✅ 資料建立完成！\n\n【您的個人資料】\n• 稱呼：" ++ name ++
  "\n• 年齡：" ++ age ++ "歲\n• 性別：" ++ gender ++
  "\n• 糖尿病類型：" ++ dtype ++
  "\n• 併發症：" ++ joinedOrNone comps ++
  "\n• 教育程度：" ++ edu ++
  "\n• 目前用藥：" ++ joinedOrNone meds ++
  "\n\n現在我會根據您的個人資料提供更適合您的衛教建議！\n\n您可以隨時輸入「我的資料」查看或「更新資料」重新設定。\n\n現在就開始提問吧！ 😊\n"

/-- The step-5 complication parse, main.py lines 786-794: the designated none
answers give the empty list, otherwise the comma-separated tokens are mapped
through `comp_map`, silently dropping every unrecognized token.  (The source's
`except` branch around the comprehension is unreachable: the comprehension
guards each lookup with membership and so never raises.) -/
def step5_comps (answer : String) : List String :=
  let a := pyStrip answer
  if a = "6" ∨ pyLower a = "無" then []
  else (pySplitComma a).filterMap (fun num => comp_map.lookup (pyStrip num))

/-- The step-7 medication parse, main.py lines 814-820: a designated none
synonym (or the empty string) gives the empty list, otherwise the answer is
split on commas and each token trimmed. -/
def step7_meds (answer : String) : List String :=
  let a := pyStrip answer
  if pyLower a = "無" ∨ pyLower a = "none" ∨ pyLower a = "" then []
  else (pySplitComma a).map pyStrip

/-- main.py lines 728-847, `process_onboarding_answer`, as a transformer of the
per-user state returning the new state and the reply text (`none` models the
Python `return None` paths).  `.error` models an uncaught exception: the only
possible one is the `KeyError` the step-7 summary f-string would raise on a
session whose earlier answers were never collected (unreachable for sessions
this program builds). -/
def process_onboarding_answer (st : UserState) (answer : String) :
    Except String (UserState × Option String) :=
  match st.session with
  | none => .ok (st, none)
  | some s =>
    let step := s.step
    let data := s.data
    if step = 1 then
      let name := pyStrip answer
      .ok ({ st with session := some ⟨2, { data with name := some name }⟩ },
           some ("很高興認識您，" ++ name ++ "！\n\n" ++ get_onboarding_question 2))
    else if step = 2 then
      match parsePyInt answer with
      | none => .ok (st, some "請輸入有效的數字年齡")
      | some age =>
        if age < 0 ∨ age > 120 then
          .ok (st, some "請輸入有效的年齡（0-120）")
        else
          .ok ({ st with session := some ⟨3, { data with age := some (toString age) }⟩ },
               some (get_onboarding_question 3))
    else if step = 3 then
      let gender := pyStrip answer
      if gender ∈ (["男性", "女性", "男", "女"] : List String) then
        let g := if gender ∈ (["男性", "男"] : List String) then "男性" else "女性"
        .ok ({ st with session := some ⟨4, { data with gender := some g }⟩ },
             some (get_onboarding_question 4))
      else
        .ok (st, some "請輸入「男性」或「女性」")
    else if step = 4 then
      match type_map.lookup (pyStrip answer) with
      | some dtype =>
        .ok ({ st with session := some ⟨5, { data with diabetes_type := some dtype }⟩ },
             some (get_onboarding_question 5))
      | none => .ok (st, some "請輸入 1、2、3 或 4")
    else if step = 5 then
      .ok ({ st with session := some ⟨6, { data with complications := some (step5_comps answer) }⟩ },
           some (get_onboarding_question 6))
    else if step = 6 then
      match edu_map.lookup (pyStrip answer) with
      | some edu =>
        .ok ({ st with session := some ⟨7, { data with education_level := some edu }⟩ },
             some (get_onboarding_question 7))
      | none => .ok (st, some "請輸入 1、2、3、4 或 5")
    else if step = 7 then
      let meds := step7_meds answer
      let d := { data with current_medications := some meds }
      match d.name, d.age, d.gender, d.diabetes_type, d.complications, d.education_level with
      | some nm, some ag, some g, some dt, some cs, some edu =>
        .ok (⟨none, some d⟩, some (summaryText nm ag g dt cs edu meds))
      | _, _, _, _, _, _ => .error "KeyError"
    else
      .ok (st, none)

/-- Which answers each step accepts (advances on), read off the branches of
`process_onboarding_answer`; steps 1, 5, 7 accept every string. -/
def validAnswer (step : Nat) (answer : String) : Bool :=
  if step = 2 then
    match parsePyInt answer with
    | some age => if age < 0 ∨ age > 120 then false else true
    | none => false
  else if step = 3 then decide (pyStrip answer ∈ (["男性", "女性", "男", "女"] : List String))
  else if step = 4 then (type_map.lookup (pyStrip answer)).isSome
  else if step = 6 then (edu_map.lookup (pyStrip answer)).isSome
  else true

/-- The re-prompt texts the state machine can actually return (the step-5
re-prompt in the source is unreachable and hence absent). -/
def repromptMsgs : List String :=
  ["請輸入有效的數字年齡", "請輸入有效的年齡（0-120）", "請輸入「男性」或「女性」",
   "請輸入 1、2、3 或 4", "請輸入 1、2、3、4 或 5"]

/-- The re-prompt a given step returns for a rejected answer. -/
def repromptFor (step : Nat) (answer : String) : String :=
  if step = 2 then
    match parsePyInt answer with
    | none => "請輸入有效的數字年齡"
    | some _ => "請輸入有效的年齡（0-120）"
  else if step = 3 then "請輸入「男性」或「女性」"
  else if step = 4 then "請輸入 1、2、3 或 4"
  else if step = 6 then "請輸入 1、2、3、4 或 5"
  else ""

/-- main.py lines 706-711, `start_onboarding`: a fresh session at step 1 with an
empty data dictionary; applied to a user with no stored profile. -/
def initialOnboarding : UserState :=
  ⟨some ⟨1, {}⟩, none⟩

/-- Feeding a list of answers, one message event at a time, through
`process_onboarding_answer`, threading the per-user state. -/
def runOnboarding (st : UserState) : List String → Except String UserState
  | [] => .ok st
  | a :: as =>
    match process_onboarding_answer st a with
    | .ok (st', _) => runOnboarding st' as
    | .error e => .error e

/-- Observer: the session step reached after a list of answers
(`none` when the run raised or the session is gone). -/
def stepTrace (st : UserState) (as : List String) : Option Nat :=
  match runOnboarding st as with
  | .ok st' => st'.session.map Session.step
  | .error _ => none

/-- Observer: the stored profile after a list of answers
(`none` when the run raised). -/
def profileTrace (st : UserState) (as : List String) : Option (Option Profile) :=
  match runOnboarding st as with
  | .ok st' => some st'.profile
  | .error _ => none

/-- Observer: the run ends with the session deleted and exactly one stored
profile carrying all seven collected fields. -/
def finishedProperly (st : UserState) (as : List String) : Bool :=
  match runOnboarding st as with
  | .ok st' =>
    st'.session.isNone &&
    (match st'.profile with
     | some p =>
       p.name.isSome && p.age.isSome && p.gender.isSome && p.diabetes_type.isSome &&
       p.complications.isSome && p.education_level.isSome && p.current_medications.isSome
     | none => false)
  | .error _ => false

/-- `Except` result is a normal return (no exception escaped). -/
def exceptOk {ε α : Type} : Except ε α → Bool
  | .ok _ => true
  | .error _ => false

/-- Sessions the program can actually build: the step counter is in 1..7 and
every answer collected by the steps already passed is present in the data
dictionary (step k stores its field and moves to k+1). -/
def WF (s : Session) : Prop :=
  1 ≤ s.step ∧ s.step ≤ 7 ∧
  (2 ≤ s.step → s.data.name.isSome) ∧
  (3 ≤ s.step → s.data.age.isSome) ∧
  (4 ≤ s.step → s.data.gender.isSome) ∧
  (5 ≤ s.step → s.data.diabetes_type.isSome) ∧
  (6 ≤ s.step → s.data.complications.isSome) ∧
  (7 ≤ s.step → s.data.education_level.isSome)

instance (s : Session) : Decidable (WF s) := by
  unfold WF; infer_instance

/-- The remote File Search service as the resolution layer observes it: the
stores it currently holds, as (display_name, name) pairs, plus a counter from
which the service mints the caller-invisible physical names. -/
structure Remote where
  stores : List (String × String)
  fresh : Nat
deriving DecidableEq, Repr

/-- `client.file_search_stores.create(config={'display_name': dn})`: the service
assigns the physical name itself and records the new store. -/
def createStore (r : Remote) (displayName : String) : Remote × String :=
  let n := "fileSearchStores/store" ++ toString r.fresh
  ({ stores := r.stores ++ [(displayName, n)], fresh := r.fresh + 1 }, n)

/-- The external calls the resolution layer can issue. -/
inductive StoreCall where
  | listStores
  | create (displayName : String)
deriving DecidableEq, Repr

/-- main.py lines 224-248, `ensure_file_search_store_exists`: list all remote
stores, linear-scan for a display-name match, otherwise create.  Returns the
(success, actual_name) pair of the source together with the evolved remote
state and the external calls issued. -/
def ensure_file_search_store_exists (r : Remote) (store_name : String) :
    (Bool × String) × Remote × List StoreCall :=
  match r.stores.find? (fun p => p.1 == store_name) with
  | some p => ((true, p.2), r, [.listStores])
  | none =>
    let (r', n) := createStore r store_name
    ((true, n), r', [.listStores, .create store_name])

/-- main.py lines 362-373, the resolution fragment of
`upload_to_file_search_store`: consult `store_name_cache` first; on a miss call
`ensure_file_search_store_exists` and populate the cache.  Returns the resolved
handle (`none` when resolution failed), the new cache, the new remote state and
the external calls issued. -/
def resolveStoreForUpload (cache : List (String × String)) (r : Remote)
    (store_name : String) :
    Option String × List (String × String) × Remote × List StoreCall :=
  match cache.lookup store_name with
  | some actual => (some actual, cache, r, [])
  | none =>
    let ((ok, actual), r', calls) := ensure_file_search_store_exists r store_name
    if ok then (some actual, (store_name, actual) :: cache, r', calls)
    else (none, cache, r', calls)

/-- The status of the asynchronous upload operation as seen after k refreshes
(`done 0` is the status of the handle `upload_to_file_search_store` returned;
`done (k+1)` the status after the k-th `client.operations.get`). -/
abbrev DoneTrace := Nat → Bool

/-- The poll loop of main.py lines 388-394 / upload_knowledge_base.py lines
74-80: `while not operation.done and elapsed < max_wait: sleep(2); refresh;
elapsed += 2` with `max_wait = 60`, returning the final `operation.done`. -/
def pollFrom (done : DoneTrace) (k elapsed : Nat) : Bool :=
  if done k then true
  else if h : elapsed < 60 then pollFrom done (k + 1) (elapsed + 2)
  else false
termination_by 60 - elapsed
decreasing_by omega

/-- The three exit paths of `upload_file_to_store` (upload_knowledge_base.py
lines 55-91) and equally of the polling part of `upload_to_file_search_store`
(main.py lines 388-405): operation done within the wait bound, wait bound
elapsed first, or an exception caught by the surrounding handler. -/
inductive UploadResult where
  | success
  | timeout
  | failure
deriving DecidableEq, Repr

/-- upload_knowledge_base.py lines 55-91, `upload_file_to_store`: the
surrounding try/except reports failure; otherwise the poll loop runs and the
final `operation.done` decides success (lines 82-87) versus timeout.
`raises` models whether the remote calls inside the try raise. -/
def upload_file_to_store (done : DoneTrace) (raises : Bool) : UploadResult :=
  if raises then .failure
  else if pollFrom done 0 0 then .success
  else .timeout

/-- A constant trace: the operation is already done at the first check. -/
def alwaysDone : DoneTrace := fun _ => true

/-- A constant trace: the operation never reports done. -/
def neverDone : DoneTrace := fun _ => false

/-- What the provider interaction of one `query_file_search` call did:
the call returned `response.text` (possibly empty, modelled as `none`),
or it raised with the given message. -/
inductive RemoteOutcome where
  | ok (text : Option String)
  | raised (e : String)
deriving DecidableEq, Repr

/-- main.py lines 408-460, `clean_markdown`: strips markdown decoration before
the text is sent to LINE.  Presentation-only beautification; modelled as the
identity on the text (no claim inspects the cleaned text). -/
def clean_markdown (text : String) : String := text

/-- The fixed guidance returned when no store is resolvable
(main.py lines 491 and 534). -/
def noFilesMsg : String :=
  "📁 您還沒有上傳任何檔案。\n\n請先傳送文件檔案（PDF、DOCX、TXT 等）給我，上傳完成後就可以開始提問了！\n\n💡 提示：如果您想分析圖片，請直接傳送圖片給我，我會立即為您分析。"

/-- main.py lines 469-491, the resolution at the head of `query_file_search`:
cache first, then a display-name scan over the listed remote stores which
populates the cache; `none` when neither finds the store. -/
def resolve_for_query (cache stores : List (String × String)) (store_name : String) :
    Option String × List (String × String) :=
  match cache.lookup store_name with
  | some actual => (some actual, cache)
  | none =>
    match stores.find? (fun p => p.1 == store_name) with
    | some p => (some p.2, (store_name, p.2) :: cache)
    | none => (none, cache)

/-- main.py lines 463-535, `query_file_search`, over a resolved-or-not store and
the outcome of the provider call.  Returns the user-visible reply, whether the
completion provider was invoked (`client.models.generate_content`, line 513),
and the cache after the call.  The personalization preamble built into the
provider's input does not influence the reply routing and is absorbed into
`RemoteOutcome`. -/
def query_file_search (cache stores : List (String × String)) (store_name : String)
    (outcome : RemoteOutcome) : String × Bool × List (String × String) :=
  match resolve_for_query cache stores store_name with
  | (none, c) => (noFilesMsg, false, c)
  | (some _, c) =>
    match outcome with
    | .ok (some t) => (clean_markdown t, true, c)
    | .ok none => ("抱歉，我無法從文件中找到相關資訊。", true, c)
    | .raised e =>
      if strContains (pyLower e) "not found" || strContains (pyLower e) "does not exist" then
        (noFilesMsg, true, c)
      else
        ("查詢時發生錯誤：" ++ e, true, c)

/-- main.py lines 651-662, `is_list_files_intent`. -/
def is_list_files_intent (text : String) : Bool :=
  let t := pyStrip (pyLower text)
  (["列出檔案", "列出文件", "顯示檔案", "顯示文件",
    "查看檔案", "查看文件", "檔案列表", "文件列表",
    "有哪些檔案", "有哪些文件", "我的檔案", "我的文件",
    "list files", "show files", "my files"]).any (fun kw => strContains t kw)

/-- main.py lines 665-695, `is_mode_switch_intent`. -/
def is_mode_switch_intent (text : String) : Bool × String :=
  let t := pyStrip (pyLower text)
  let knowledge_keywords := ["知識庫", "知識庫模式", "使用知識庫", "切換知識庫",
    "糖尿病", "醫療知識", "專業知識", "knowledge", "knowledge base"]
  let personal_keywords := ["個人檔案", "個人模式", "我的檔案", "私人檔案",
    "切換個人", "使用個人", "personal", "my files", "personal mode"]
  let is_mode_command := (["模式", "切換", "mode", "switch"]).any (fun w => strContains t w)
  if is_mode_command then
    if knowledge_keywords.any (fun kw => strContains t kw) then (true, "knowledge")
    else if personal_keywords.any (fun kw => strContains t kw) then (true, "personal")
    else (false, "")
  else (false, "")

/-- main.py lines 850-853, `is_onboarding_command`. -/
def is_onboarding_command (text : String) : Bool :=
  (["設定資料", "建立資料", "個人資料設定", "開始設定", "setup", "start"]).any
    (fun kw => strContains (pyLower text) kw)

/-- main.py lines 856-859, `is_profile_view_command`. -/
def is_profile_view_command (text : String) : Bool :=
  (["我的資料", "個人資料", "查看資料", "my profile", "profile"]).any
    (fun kw => strContains (pyLower text) kw)

/-- main.py lines 862-865, `is_profile_update_command`. -/
def is_profile_update_command (text : String) : Bool :=
  (["更新資料", "修改資料", "重新設定", "update profile"]).any
    (fun kw => strContains (pyLower text) kw)

/-- The handling path a text message is dispatched to. -/
inductive Route where
  | onboardingAnswer
  | startOnboarding
  | viewProfile
  | updateProfile
  | switchMode (mode : String)
  | showMode
  | listFiles
  | freeQuery
deriving DecidableEq, Repr

/-- The ordered intent classification of `handle_text_message`, main.py lines
989-1087: rule 0 (an open onboarding session, lines 999-1004, which dispatches
to `process_onboarding_answer`) down to the free-form query fallthrough. -/
def classify_text_message (session : Option Session) (text : String) : Route :=
  match session with
  | some _ => .onboardingAnswer
  | none =>
    if is_onboarding_command text then .startOnboarding
    else if is_profile_view_command text then .viewProfile
    else if is_profile_update_command text then .updateProfile
    else
      let (is_switch, new_mode) := is_mode_switch_intent text
      if is_switch then .switchMode new_mode
      else if pyStrip text ∈ (["模式", "目前模式", "當前模式", "mode", "current mode"] : List String) then .showMode
      else if is_list_files_intent text then .listFiles
      else .freeQuery

lemma step1_adv (d : Profile) (pr : Option Profile) (a : String) :
    process_onboarding_answer ⟨some ⟨1, d⟩, pr⟩ a =
      .ok (⟨some ⟨2, { d with name := some (pyStrip a) }⟩, pr⟩,
           some ("很高興認識您，" ++ pyStrip a ++ "！\n\n" ++ get_onboarding_question 2)) := rfl

lemma step2_adv (d : Profile) (pr : Option Profile) (a : String) (n : Int)
    (hp : parsePyInt a = some n) (hlo : ¬ n < 0) (hhi : ¬ n > 120) :
    process_onboarding_answer ⟨some ⟨2, d⟩, pr⟩ a =
      .ok (⟨some ⟨3, { d with age := some (toString n) }⟩, pr⟩,
           some (get_onboarding_question 3)) := by
  simp [process_onboarding_answer, hp, hlo, hhi]

lemma step2_rej_nonnum (d : Profile) (pr : Option Profile) (a : String)
    (hp : parsePyInt a = none) :
    process_onboarding_answer ⟨some ⟨2, d⟩, pr⟩ a =
      .ok (⟨some ⟨2, d⟩, pr⟩, some "請輸入有效的數字年齡") := by
  simp [process_onboarding_answer, hp]

lemma step2_rej_range (d : Profile) (pr : Option Profile) (a : String) (n : Int)
    (hp : parsePyInt a = some n) (hb : n < 0 ∨ n > 120) :
    process_onboarding_answer ⟨some ⟨2, d⟩, pr⟩ a =
      .ok (⟨some ⟨2, d⟩, pr⟩, some "請輸入有效的年齡（0-120）") := by
  simp [process_onboarding_answer, hp, hb]

lemma step3_adv (d : Profile) (pr : Option Profile) (a : String)
    (hm : pyStrip a ∈ (["男性", "女性", "男", "女"] : List String)) :
    process_onboarding_answer ⟨some ⟨3, d⟩, pr⟩ a =
      .ok (⟨some ⟨4, { d with gender := some (if pyStrip a ∈ (["男性", "男"] : List String) then "男性" else "女性") }⟩, pr⟩,
           some (get_onboarding_question 4)) := by
  simp [process_onboarding_answer, hm]

lemma step3_rej (d : Profile) (pr : Option Profile) (a : String)
    (hm : pyStrip a ∉ (["男性", "女性", "男", "女"] : List String)) :
    process_onboarding_answer ⟨some ⟨3, d⟩, pr⟩ a =
      .ok (⟨some ⟨3, d⟩, pr⟩, some "請輸入「男性」或「女性」") := by
  simp [process_onboarding_answer, hm]

lemma step4_adv (d : Profile) (pr : Option Profile) (a dt : String)
    (hl : type_map.lookup (pyStrip a) = some dt) :
    process_onboarding_answer ⟨some ⟨4, d⟩, pr⟩ a =
      .ok (⟨some ⟨5, { d with diabetes_type := some dt }⟩, pr⟩,
           some (get_onboarding_question 5)) := by
  simp [process_onboarding_answer, hl]

lemma step4_rej (d : Profile) (pr : Option Profile) (a : String)
    (hl : type_map.lookup (pyStrip a) = none) :
    process_onboarding_answer ⟨some ⟨4, d⟩, pr⟩ a =
      .ok (⟨some ⟨4, d⟩, pr⟩, some "請輸入 1、2、3 或 4") := by
  simp [process_onboarding_answer, hl]

lemma step5_adv (d : Profile) (pr : Option Profile) (a : String) :
    process_onboarding_answer ⟨some ⟨5, d⟩, pr⟩ a =
      .ok (⟨some ⟨6, { d with complications := some (step5_comps a) }⟩, pr⟩,
           some (get_onboarding_question 6)) := rfl

lemma step6_adv (d : Profile) (pr : Option Profile) (a edu : String)
    (hl : edu_map.lookup (pyStrip a) = some edu) :
    process_onboarding_answer ⟨some ⟨6, d⟩, pr⟩ a =
      .ok (⟨some ⟨7, { d with education_level := some edu }⟩, pr⟩,
           some (get_onboarding_question 7)) := by
  simp [process_onboarding_answer, hl]

lemma step6_rej (d : Profile) (pr : Option Profile) (a : String)
    (hl : edu_map.lookup (pyStrip a) = none) :
    process_onboarding_answer ⟨some ⟨6, d⟩, pr⟩ a =
      .ok (⟨some ⟨6, d⟩, pr⟩, some "請輸入 1、2、3、4 或 5") := by
  simp [process_onboarding_answer, hl]

lemma step7_adv (d : Profile) (pr : Option Profile) (a nm ag g dt edu : String)
    (cs : List String)
    (h1 : d.name = some nm) (h2 : d.age = some ag) (h3 : d.gender = some g)
    (h4 : d.diabetes_type = some dt) (h5 : d.complications = some cs)
    (h6 : d.education_level = some edu) :
    process_onboarding_answer ⟨some ⟨7, d⟩, pr⟩ a =
      .ok (⟨none, some { d with current_medications := some (step7_meds a) }⟩,
           some (summaryText nm ag g dt cs edu (step7_meds a))) := by
  simp [process_onboarding_answer, h1, h2, h3, h4, h5, h6]

/-- C1: starting from a fresh onboarding session (step 1, empty data, no stored
profile), any sequence of seven answers that are valid at their steps advances
the session step by exactly one per accepted answer (reaching steps 2,3,4,5,6,7
after answers 1..6, with no profile recorded yet at any intermediate point),
and the seventh accepted answer deletes the session and records exactly one
profile holding all seven collected fields — no state remains in which the
finished profile coexists with a stale session. -/
theorem onboarding_seven_valid_answers (a1 a2 a3 a4 a5 a6 a7 : String)
    (h2 : validAnswer 2 a2 = true) (h3 : validAnswer 3 a3 = true)
    (h4 : validAnswer 4 a4 = true) (h6 : validAnswer 6 a6 = true) :
    stepTrace initialOnboarding [a1] = some 2 ∧
    profileTrace initialOnboarding [a1] = some none ∧
    stepTrace initialOnboarding [a1, a2] = some 3 ∧
    profileTrace initialOnboarding [a1, a2] = some none ∧
    stepTrace initialOnboarding [a1, a2, a3] = some 4 ∧
    profileTrace initialOnboarding [a1, a2, a3] = some none ∧
    stepTrace initialOnboarding [a1, a2, a3, a4] = some 5 ∧
    profileTrace initialOnboarding [a1, a2, a3, a4] = some none ∧
    stepTrace initialOnboarding [a1, a2, a3, a4, a5] = some 6 ∧
    profileTrace initialOnboarding [a1, a2, a3, a4, a5] = some none ∧
    stepTrace initialOnboarding [a1, a2, a3, a4, a5, a6] = some 7 ∧
    profileTrace initialOnboarding [a1, a2, a3, a4, a5, a6] = some none ∧
    finishedProperly initialOnboarding [a1, a2, a3, a4, a5, a6, a7] = true := by
  have h2' : ∃ n, parsePyInt a2 = some n ∧ ¬ n < 0 ∧ ¬ n > 120 := by
    unfold validAnswer at h2
    simp only [if_pos rfl] at h2
    cases hp : parsePyInt a2 with
    | none => rw [hp] at h2; simp at h2
    | some n =>
      rw [hp] at h2
      by_cases hb : n < 0 ∨ n > 120
      · simp [hb] at h2
      · exact ⟨n, rfl, by tauto⟩
  obtain ⟨n2, hp2, hlo2, hhi2⟩ := h2'
  have h3' : pyStrip a3 ∈ (["男性", "女性", "男", "女"] : List String) := by
    unfold validAnswer at h3
    simp at h3
    rcases h3 with h | h | h | h <;> simp [h]
  have h4' : ∃ dt, type_map.lookup (pyStrip a4) = some dt := by
    unfold validAnswer at h4
    simp [Option.isSome_iff_exists] at h4
    exact h4
  obtain ⟨dt4, hl4⟩ := h4'
  have h6' : ∃ ed, edu_map.lookup (pyStrip a6) = some ed := by
    unfold validAnswer at h6
    simp [Option.isSome_iff_exists] at h6
    exact h6
  obtain ⟨ed6, hl6⟩ := h6'
  refine ⟨?_, ?_, ?_, ?_, ?_, ?_, ?_, ?_, ?_, ?_, ?_, ?_, ?_⟩ <;>
    simp [stepTrace, profileTrace, finishedProperly, runOnboarding, initialOnboarding,
      process_onboarding_answer, hp2, hlo2, hhi2, h3', hl4, hl6]

/-- Witness for C1: the spec's end-to-end scenario A
(小美 / 45 / 女性 / 2 / 6 / 4 / 無). -/
theorem onboarding_seven_valid_answers_witness :
    validAnswer 2 "45" = true ∧ validAnswer 3 "女性" = true ∧
    validAnswer 4 "2" = true ∧ validAnswer 6 "4" = true ∧
    (stepTrace initialOnboarding ["小美"] = some 2 ∧
     profileTrace initialOnboarding ["小美"] = some none ∧
     stepTrace initialOnboarding ["小美", "45"] = some 3 ∧
     profileTrace initialOnboarding ["小美", "45"] = some none ∧
     stepTrace initialOnboarding ["小美", "45", "女性"] = some 4 ∧
     profileTrace initialOnboarding ["小美", "45", "女性"] = some none ∧
     stepTrace initialOnboarding ["小美", "45", "女性", "2"] = some 5 ∧
     profileTrace initialOnboarding ["小美", "45", "女性", "2"] = some none ∧
     stepTrace initialOnboarding ["小美", "45", "女性", "2", "6"] = some 6 ∧
     profileTrace initialOnboarding ["小美", "45", "女性", "2", "6"] = some none ∧
     stepTrace initialOnboarding ["小美", "45", "女性", "2", "6", "4"] = some 7 ∧
     profileTrace initialOnboarding ["小美", "45", "女性", "2", "6", "4"] = some none ∧
     finishedProperly initialOnboarding ["小美", "45", "女性", "2", "6", "4", "無"] = true) :=
  ⟨by decide, by decide, by decide, by decide,
   onboarding_seven_valid_answers "小美" "45" "女性" "2" "6" "4" "無"
     (by decide) (by decide) (by decide) (by decide)⟩

/-- A reachable step-5 session's collected data, used as the concrete context
for the step-5 claims. -/
def c2data : Profile :=
  { name := some "王先生", age := some "50", gender := some "男性",
    diabetes_type := some "第2型" }

/-- C2 counterexample: at step 5, the answer "abc" contains no valid
complication code after filtering, yet the state machine does NOT re-prompt:
it records the empty complication set and advances the session to step 6,
returning the step-6 question (the source's re-prompt branch is unreachable). -/
theorem step5_no_valid_code_advances_counterexample :
    process_onboarding_answer ⟨some ⟨5, c2data⟩, none⟩ "abc" =
      .ok (⟨some ⟨6, { c2data with complications := some [] }⟩, none⟩,
           some (get_onboarding_question 6)) ∧
    (⟨some ⟨6, { c2data with complications := some [] }⟩, none⟩ : UserState) ≠
      (⟨some ⟨5, c2data⟩, none⟩ : UserState) := by
  refine ⟨?_, by decide⟩
  simp [process_onboarding_answer]
  decide

/-- C2 (amended): at step 5 the machine accepts every answer and always
advances to step 6.  A designated none answer ('6' or '無') yields the empty
complication set; any other answer is split on commas and mapped through the
fixed lookup, silently dropping unrecognized codes — in particular an answer
with no valid code at all also yields the empty set and still advances
(rather than re-prompting, as the source's dead branch intended). -/
theorem step5_permissive_parse_amended (st : UserState) (d : Profile) (a : String)
    (hs : st.session = some ⟨5, d⟩) :
    process_onboarding_answer st a =
      .ok ({ st with session := some ⟨6, { d with complications := some (step5_comps a) }⟩ },
           some (get_onboarding_question 6)) ∧
    ((pyStrip a = "6" ∨ pyLower (pyStrip a) = "無") → step5_comps a = []) ∧
    (¬(pyStrip a = "6" ∨ pyLower (pyStrip a) = "無") →
      step5_comps a = (pySplitComma (pyStrip a)).filterMap (fun num => comp_map.lookup (pyStrip num))) := by
  obtain ⟨sess, pr⟩ := st
  cases hs
  refine ⟨step5_adv d pr a, ?_, ?_⟩
  · intro h; simp [step5_comps, h]
  · intro h; simp [step5_comps, h]

/-- Witness for the amended C2: "1, 9 ,x" keeps the one valid code 1
(視網膜病變), drops 9 and x, and advances. -/
theorem step5_permissive_parse_amended_witness :
    process_onboarding_answer ⟨some ⟨5, c2data⟩, none⟩ "1, 9 ,x" =
      .ok (⟨some ⟨6, { c2data with complications := some (step5_comps "1, 9 ,x") }⟩, none⟩,
           some (get_onboarding_question 6)) ∧
    step5_comps "1, 9 ,x" = ["視網膜病變"] :=
  ⟨(step5_permissive_parse_amended _ c2data _ rfl).1, by decide⟩

/-- Helper shared by the frame/safety claims: at steps 2, 3, 4 and 6 a rejected
answer leaves the whole per-user state unchanged and returns that step's
re-prompt text. -/
lemma invalid_reprompt (d : Profile) (pr : Option Profile) (a : String) (step : Nat)
    (hstep : step = 2 ∨ step = 3 ∨ step = 4 ∨ step = 6)
    (hinv : validAnswer step a = false) :
    process_onboarding_answer ⟨some ⟨step, d⟩, pr⟩ a =
      .ok (⟨some ⟨step, d⟩, pr⟩, some (repromptFor step a)) ∧
    repromptFor step a ∈ repromptMsgs := by
  rcases hstep with rfl | rfl | rfl | rfl
  · unfold validAnswer at hinv
    simp only [if_pos rfl] at hinv
    cases hp : parsePyInt a with
    | none =>
      rw [step2_rej_nonnum d pr a hp]
      simp [repromptFor, repromptMsgs, hp]
    | some n =>
      rw [hp] at hinv
      by_cases hb : n < 0 ∨ n > 120
      · rw [step2_rej_range d pr a n hp hb]
        simp [repromptFor, repromptMsgs, hp]
      · simp [hb] at hinv
  · unfold validAnswer at hinv
    simp at hinv
    have hm : pyStrip a ∉ (["男性", "女性", "男", "女"] : List String) := by
      simp [List.mem_cons]; tauto
    rw [step3_rej d pr a hm]
    simp [repromptFor, repromptMsgs]
  · cases h : type_map.lookup (pyStrip a) with
    | some v => unfold validAnswer at hinv; simp [h] at hinv
    | none =>
      rw [step4_rej d pr a h]
      simp [repromptFor, repromptMsgs]
  · cases h : edu_map.lookup (pyStrip a) with
    | some v => unfold validAnswer at hinv; simp [h] at hinv
    | none =>
      rw [step6_rej d pr a h]
      simp [repromptFor, repromptMsgs]

/-- C4: for a session at step 2, 3, 4 or 6 and any answer the step's validator
rejects (non-numeric or out-of-range age, a gender word outside the fixed
vocabulary, a diabetes-type or education-level code outside the fixed map),
`process_onboarding_answer` returns the whole per-user state unchanged —
session step, partial data and stored profile — together with a re-prompt. -/
theorem invalid_answer_leaves_state_unchanged (st : UserState) (s : Session) (a : String)
    (hs : st.session = some s)
    (hstep : s.step = 2 ∨ s.step = 3 ∨ s.step = 4 ∨ s.step = 6)
    (hinv : validAnswer s.step a = false) :
    process_onboarding_answer st a = .ok (st, some (repromptFor s.step a)) ∧
    repromptFor s.step a ∈ repromptMsgs := by
  obtain ⟨sess, pr⟩ := st
  cases hs
  obtain ⟨step, d⟩ := s
  exact invalid_reprompt d pr a step hstep hinv

/-- Witness for C4: the non-numeric age answer "abc" at step 2. -/
theorem invalid_answer_leaves_state_unchanged_witness :
    process_onboarding_answer ⟨some ⟨2, { name := some "王先生" }⟩, none⟩ "abc" =
      .ok (⟨some ⟨2, { name := some "王先生" }⟩, none⟩, some "請輸入有效的數字年齡") ∧
    "請輸入有效的數字年齡" ∈ repromptMsgs :=
  invalid_answer_leaves_state_unchanged ⟨some ⟨2, { name := some "王先生" }⟩, none⟩
    ⟨2, { name := some "王先生" }⟩ "abc" rfl (Or.inl rfl) (by decide)

/-- C6: on every session the program can build (step in 1..7 with the earlier
answers collected) and every answer string, `process_onboarding_answer` returns
normally — no exception escapes the state machine — and whenever the step's
validator rejects the answer the result is exactly the unchanged state plus a
recoverable re-prompt, never a fatal error or silent data corruption. -/
theorem onboarding_total_no_exception (st : UserState) (s : Session) (a : String)
    (hs : st.session = some s) (hwf : WF s) :
    exceptOk (process_onboarding_answer st a) = true ∧
    (validAnswer s.step a = false →
      process_onboarding_answer st a = .ok (st, some (repromptFor s.step a)) ∧
      repromptFor s.step a ∈ repromptMsgs) := by
  obtain ⟨sess, pr⟩ := st
  cases hs
  obtain ⟨step, d⟩ := s
  obtain ⟨hge, hle, f2, f3, f4, f5, f6, f7⟩ := hwf
  simp only at hge hle f2 f3 f4 f5 f6 f7 ⊢
  interval_cases step
  · refine ⟨by rw [step1_adv]; rfl, ?_⟩
    intro h
    exact absurd h (by simp [validAnswer])
  · constructor
    · cases hp : parsePyInt a with
      | none => rw [step2_rej_nonnum d pr a hp]; rfl
      | some n =>
        by_cases hb : n < 0 ∨ n > 120
        · rw [step2_rej_range d pr a n hp hb]; rfl
        · rw [step2_adv d pr a n hp (by tauto) (by tauto)]; rfl
    · intro h
      exact invalid_reprompt d pr a 2 (Or.inl rfl) h
  · constructor
    · by_cases hm : pyStrip a ∈ (["男性", "女性", "男", "女"] : List String)
      · rw [step3_adv d pr a hm]; rfl
      · rw [step3_rej d pr a hm]; rfl
    · intro h
      exact invalid_reprompt d pr a 3 (Or.inr (Or.inl rfl)) h
  · constructor
    · cases hl : type_map.lookup (pyStrip a) with
      | some dt => rw [step4_adv d pr a dt hl]; rfl
      | none => rw [step4_rej d pr a hl]; rfl
    · intro h
      exact invalid_reprompt d pr a 4 (Or.inr (Or.inr (Or.inl rfl))) h
  · refine ⟨by rw [step5_adv]; rfl, ?_⟩
    intro h
    exact absurd h (by simp [validAnswer])
  · constructor
    · cases hl : edu_map.lookup (pyStrip a) with
      | some ed => rw [step6_adv d pr a ed hl]; rfl
      | none => rw [step6_rej d pr a hl]; rfl
    · intro h
      exact invalid_reprompt d pr a 6 (Or.inr (Or.inr (Or.inr rfl))) h
  · obtain ⟨nm, h1⟩ := Option.isSome_iff_exists.mp (f2 (by omega))
    obtain ⟨ag, h2⟩ := Option.isSome_iff_exists.mp (f3 (by omega))
    obtain ⟨g, h3⟩ := Option.isSome_iff_exists.mp (f4 (by omega))
    obtain ⟨dt, h4⟩ := Option.isSome_iff_exists.mp (f5 (by omega))
    obtain ⟨cs, h5⟩ := Option.isSome_iff_exists.mp (f6 (by omega))
    obtain ⟨ed, h6⟩ := Option.isSome_iff_exists.mp (f7 (by omega))
    refine ⟨by rw [step7_adv d pr a nm ag g dt ed cs h1 h2 h3 h4 h5 h6]; rfl, ?_⟩
    intro h
    exact absurd h (by simp [validAnswer])

/-- Witness for C6: a reachable step-3 session with the rejected answer "x". -/
theorem onboarding_total_no_exception_witness :
    exceptOk (process_onboarding_answer
        ⟨some ⟨3, { name := some "王先生", age := some "45" }⟩, none⟩ "x") = true ∧
    process_onboarding_answer
        ⟨some ⟨3, { name := some "王先生", age := some "45" }⟩, none⟩ "x" =
      .ok (⟨some ⟨3, { name := some "王先生", age := some "45" }⟩, none⟩,
           some "請輸入「男性」或「女性」") ∧
    "請輸入「男性」或「女性」" ∈ repromptMsgs := by
  have h := onboarding_total_no_exception
    ⟨some ⟨3, { name := some "王先生", age := some "45" }⟩, none⟩
    ⟨3, { name := some "王先生", age := some "45" }⟩ "x" rfl (by decide)
  exact ⟨h.1, (h.2 (by decide)).1, (h.2 (by decide)).2⟩

/-- C10: step 1 accepts every answer, the empty and whitespace-only string
included — it stores the stripped answer as the name and advances to step 2
without ever re-prompting — and a profile whose name ended up empty is never
reported complete by `is_user_profile_complete`. -/
theorem step1_accepts_any_name (st : UserState) (d : Profile) (a : String)
    (hs : st.session = some ⟨1, d⟩) :
    process_onboarding_answer st a =
      .ok ({ st with session := some ⟨2, { d with name := some (pyStrip a) }⟩ },
           some ("很高興認識您，" ++ pyStrip a ++ "！\n\n" ++ get_onboarding_question 2)) ∧
    (∀ p : Profile, p.name = some "" → is_user_profile_complete (some p) = false) := by
  obtain ⟨sess, pr⟩ := st
  cases hs
  refine ⟨step1_adv d pr a, ?_⟩
  intro p hp
  simp [is_user_profile_complete, truthy, hp]

/-- Witness for C10: the whitespace-only answer is accepted and stored as the
empty name. -/
theorem step1_accepts_any_name_witness :
    process_onboarding_answer ⟨some ⟨1, {}⟩, none⟩ "   " =
      .ok (⟨some ⟨2, { name := some (pyStrip "   ") }⟩, none⟩,
           some ("很高興認識您，" ++ pyStrip "   " ++ "！\n\n" ++ get_onboarding_question 2)) ∧
    pyStrip "   " = "" :=
  ⟨(step1_accepts_any_name ⟨some ⟨1, {}⟩, none⟩ {} "   " rfl).1, by decide⟩

/-- C7: whenever an onboarding session is open for the user, the router
classifies every text message as an onboarding answer, whatever the text says —
no other intent rule (onboarding start, profile view/update, mode switch, mode
query, list documents, free-form query) is reached. -/
theorem router_session_always_onboarding (s : Session) (text : String) :
    classify_text_message (some s) text = Route.onboardingAnswer := rfl

/-- C8: when the logical store name resolves to nothing — not in the cache and
no listed remote store carries it as display name — `query_file_search` returns
the fixed "no files uploaded yet" guidance and never calls the completion
provider. -/
theorem query_no_store_fixed_guidance (cache stores : List (String × String))
    (name : String) (outcome : RemoteOutcome)
    (hc : cache.lookup name = none)
    (hs : stores.find? (fun p => p.1 == name) = none) :
    query_file_search cache stores name outcome = (noFilesMsg, false, cache) := by
  simp [query_file_search, resolve_for_query, hc, hs]

/-- Witness for C8: empty cache and no remote stores. -/
theorem query_no_store_fixed_guidance_witness :
    query_file_search [] [] "chatbot_knowledge_base" (.ok (some "answer")) =
      (noFilesMsg, false, []) :=
  query_no_store_fixed_guidance [] [] "chatbot_knowledge_base" (.ok (some "answer")) rfl rfl

/-- C9 counterexample: a provider failure with detail "boom" (not a
store-not-found message) produces the user-visible reply
"查詢時發生錯誤：boom", which contains the raw error detail — refuting the
claim that the raw detail is never shown to the user. -/
theorem query_error_detail_leaked_counterexample :
    query_file_search [("chatbot_knowledge_base", "fileSearchStores/s1")] []
        "chatbot_knowledge_base" (.raised "boom") =
      ("查詢時發生錯誤：boom", true, [("chatbot_knowledge_base", "fileSearchStores/s1")]) ∧
    strContains "查詢時發生錯誤：boom" "boom" = true := by
  constructor
  · simp [query_file_search, resolve_for_query]
    decide
  · decide

/-- C9 (amended): on a remote-call failure during a free-form query whose
detail is not a store-not-found message, the reply is the error text
"查詢時發生錯誤：" with the raw error detail appended — the raw detail IS
propagated to the end user (it is also logged). -/
theorem query_error_reply_contains_detail (cache stores : List (String × String))
    (name actual e : String)
    (hres : (resolve_for_query cache stores name).1 = some actual)
    (hnf : strContains (pyLower e) "not found" = false)
    (hne : strContains (pyLower e) "does not exist" = false) :
    query_file_search cache stores name (.raised e) =
      ("查詢時發生錯誤：" ++ e, true, (resolve_for_query cache stores name).2) := by
  rcases hrq : resolve_for_query cache stores name with ⟨o, c⟩
  rw [hrq] at hres
  simp only at hres
  subst hres
  simp [query_file_search, hrq, hnf, hne]

/-- Witness for the amended C9: the failure detail "HTTP 500" reaches the
user's reply verbatim. -/
theorem query_error_reply_contains_detail_witness :
    query_file_search [("chatbot_knowledge_base", "fileSearchStores/s1")] []
        "chatbot_knowledge_base" (.raised "HTTP 500") =
      ("查詢時發生錯誤：HTTP 500", true, [("chatbot_knowledge_base", "fileSearchStores/s1")]) :=
  query_error_reply_contains_detail [("chatbot_knowledge_base", "fileSearchStores/s1")] []
    "chatbot_knowledge_base" "fileSearchStores/s1" "HTTP 500" rfl (by decide) (by decide)

/-- C5: resolving the same logical store name twice in sequence, with the
remote service untouched in between, yields the same physical handle both
times, and the second resolution is a pure cache hit: it issues no external
call at all — in particular no create — and changes neither the cache nor the
remote state. -/
theorem resolve_twice_cache_hit (cache : List (String × String)) (r : Remote) (name : String) :
    ∃ h c₁ r₁ calls,
      resolveStoreForUpload cache r name = (some h, c₁, r₁, calls) ∧
      resolveStoreForUpload c₁ r₁ name = (some h, c₁, r₁, []) := by
  cases hc : cache.lookup name with
  | some actual =>
    exact ⟨actual, cache, r, [], by simp [resolveStoreForUpload, hc],
           by simp [resolveStoreForUpload, hc]⟩
  | none =>
    cases hf : r.stores.find? (fun p => p.1 == name) with
    | some p =>
      refine ⟨p.2, (name, p.2) :: cache, r, [.listStores], ?_, ?_⟩
      · simp [resolveStoreForUpload, ensure_file_search_store_exists, hc, hf]
      · simp [resolveStoreForUpload, List.lookup]
    | none =>
      refine ⟨"fileSearchStores/store" ++ toString r.fresh,
        (name, "fileSearchStores/store" ++ toString r.fresh) :: cache,
        { stores := r.stores ++ [(name, "fileSearchStores/store" ++ toString r.fresh)],
          fresh := r.fresh + 1 }, [.listStores, .create name], ?_, ?_⟩
      · simp [resolveStoreForUpload, ensure_file_search_store_exists, createStore, hc, hf]
      · simp [resolveStoreForUpload, List.lookup]

/-- The poll loop started at refresh k with `elapsed = 2k` succeeds exactly
when the operation reports done at some refresh j with k ≤ j ≤ 30. -/
lemma pollFrom_eq_true_iff (done : DoneTrace) :
    ∀ n k, k + n = 30 →
      (pollFrom done k (2 * k) = true ↔ ∃ j, k ≤ j ∧ j ≤ 30 ∧ done j = true) := by
  intro n
  induction n with
  | zero =>
    intro k hk
    have hk30 : k = 30 := by omega
    subst hk30
    unfold pollFrom
    by_cases h : done 30
    · simp [h]
      exact ⟨30, by omega, by omega, h⟩
    · simp [h]
      intro j hj1 hj2
      have : j = 30 := by omega
      subst this
      simpa using h
  | succ n ih =>
    intro k hk
    have h60 : 2 * k < 60 := by omega
    unfold pollFrom
    by_cases h : done k
    · simp [h]
      exact ⟨k, le_refl k, by omega, h⟩
    · simp [h, h60]
      have h2 : 2 * k + 2 = 2 * (k + 1) := by ring
      rw [h2, ih (k + 1) (by omega)]
      constructor
      · rintro ⟨j, hj1, hj2, hj3⟩
        exact ⟨j, by omega, hj2, hj3⟩
      · rintro ⟨j, hj1, hj2, hj3⟩
        refine ⟨j, ?_, hj2, hj3⟩
        rcases Nat.eq_or_lt_of_le hj1 with heq | hlt
        · subst heq; rw [hj3] at h; simp at h
        · omega

/-- C3: an upload whose polled operation reports done within the 60-unit
bound (some refresh k ≤ 30, i.e. elapsed 2k ≤ 60) results in success; one that
never reports done within the bound results in timeout — an outcome distinct
from failure and distinct from success. -/
theorem upload_poll_success_or_timeout (done : DoneTrace) :
    ((∃ k, k ≤ 30 ∧ done k = true) → upload_file_to_store done false = .success) ∧
    ((∀ k, k ≤ 30 → done k = false) → upload_file_to_store done false = .timeout) ∧
    UploadResult.timeout ≠ UploadResult.failure ∧
    UploadResult.timeout ≠ UploadResult.success := by
  have hiff := pollFrom_eq_true_iff done 30 0 (by omega)
  norm_num at hiff
  refine ⟨?_, ?_, by decide, by decide⟩
  · rintro ⟨k, hk, hd⟩
    have hp : pollFrom done 0 0 = true := hiff.mpr ⟨k, hk, hd⟩
    simp [upload_file_to_store, hp]
  · intro hall
    have hp : pollFrom done 0 0 = false := by
      rw [Bool.eq_false_iff]
      intro hcon
      obtain ⟨j, hj1, hj2⟩ := hiff.mp hcon
      rw [hall j hj1] at hj2
      simp at hj2
    simp [upload_file_to_store, hp]

/-- Witness for C3: an operation already done at the first check succeeds;
one that never completes times out. -/
theorem upload_poll_success_or_timeout_witness :
    upload_file_to_store alwaysDone false = .success ∧
    upload_file_to_store neverDone false = .timeout :=
  ⟨(upload_poll_success_or_timeout alwaysDone).1 ⟨0, by omega, rfl⟩,
   (upload_poll_success_or_timeout neverDone).2.1 (fun k _ => rfl)⟩
